import Mathlib

/-!
Verification of the attendance-app repository: a shallow embedding of the
authentication service, the geofence gate of the face-verification screens,
and the face-recognition attendance core (embedding store, matcher,
attendance ledger, scanner controller) described by the specification.

Database rows returned by the storage layer are modelled as association
lists from column names to string values, mirroring the JavaScript objects
the supabase client returns.
-/

namespace AttendanceApp

/-- A database row / JavaScript object: an association list from field
names to values. -/
abbrev Row : Type := List (String × String)

/-- Field lookup on a row, `none` when the field is absent. -/
def rowGet (row : Row) (key : String) : Option String :=
  (List.find? (fun p => p.1 == key) row).map (fun p => p.2)

/-- The column projection a supabase `.select(cols)` performs: the result
object holds exactly the requested columns (a column missing from the row
comes back empty, as a JS `undefined`/`null` value does). -/
def selectColumns (cols : List String) (row : Row) : Row :=
  cols.map (fun c => (c, (rowGet row c).getD ""))

/-- The column list both `signUpWithEmail` and `signInWithEmail` pass to
`.select(...)` in the source: `'id, full_name, email, phone, employee_id,
role, created_at, last_login'`. -/
def publicColumns : List String :=
  ["id", "full_name", "email", "phone", "employee_id", "role",
   "created_at", "last_login"]

/-- Result of an auth-service call: `{ok: true, user}` or
`{ok: false, error}`. -/
inductive AuthResult where
  | ok (user : Row)
  | err (msg : String)
deriving DecidableEq

/-- The `users` table: a list of stored rows. -/
abbrev UsersTable : Type := List Row

/-- The row `signUpWithEmail` builds before the insert: `full_name`,
lowercased trimmed `email`, the hashed password, role `'user'`, and the
optional `phone` / `employee_id` fields only when provided non-blank.
`hash` is the password-hashing function (`CryptoJS.SHA256(...).toString()`
in the source; the hash itself is an external library, passed here as a
parameter). -/
def signUpUserData (hash : String → String) (email password name : String)
    (phone employeeId : Option String) : Row :=
  [("full_name", name.trim), ("email", email.toLower.trim),
   ("password", hash password), ("role", "user")]
  ++ (match phone with
      | some p => if p.trim ≠ "" then [("phone", p.trim)] else []
      | none => [])
  ++ (match employeeId with
      | some e => if e.trim ≠ "" then [("employee_id", e.trim)] else []
      | none => [])

/-- Whether the table already holds a row with the given email (the unique
constraint on `users.email`; violating it is supabase error `23505`). -/
def emailTaken (db : UsersTable) (email : String) : Bool :=
  db.any (fun row => rowGet row "email" == some email)

/-- `signUpWithEmail(email, password, name, phone?, employeeId?)` from the
auth service: validates that email, password and name are non-empty,
hashes the password, inserts the new user row (the store generates `id`
and `created_at`; `last_login` starts null), and returns the row projected
onto `publicColumns`. Returns the updated table alongside the result; every
error path returns the table unchanged. -/
def signUpWithEmail (hash : String → String) (db : UsersTable)
    (nextId now : Nat) (email password name : String)
    (phone employeeId : Option String) : AuthResult × UsersTable :=
  if email = "" ∨ password = "" ∨ name = "" then
    (.err "All fields are required", db)
  else
    let userData := signUpUserData hash email password name phone employeeId
    if emailTaken db (email.toLower.trim) then
      (.err "User with this email already exists", db)
    else
      let stored : Row := userData ++ [("id", toString nextId),
                                       ("created_at", toString now)]
      (.ok (selectColumns publicColumns stored), db ++ [stored])

/-- `signInWithEmail(email, password)`: validates non-empty inputs, looks
up a row matching the lowercased email and the hashed password (already
projected onto `publicColumns` by the query's `.select`), updates that
row's `last_login`, and returns the projected row. -/
def signInWithEmail (hash : String → String) (db : UsersTable)
    (now : Nat) (email password : String) : AuthResult × UsersTable :=
  if email = "" ∨ password = "" then
    (.err "Email and password are required", db)
  else
    match List.find? (fun row =>
        rowGet row "email" == some email.toLower
        && rowGet row "password" == some (hash password)) db with
    | none => (.err "Invalid email or password", db)
    | some row =>
      let db' := db.map (fun r =>
        if rowGet r "id" = rowGet row "id" then
          (r.filter (fun p => p.1 ≠ "last_login")) ++ [("last_login", toString now)]
        else r)
      (.ok (selectColumns publicColumns row), db')

/-- The keys of a `selectColumns` projection are exactly the requested
columns. -/
theorem selectColumns_keys (cols : List String) (row : Row) :
    (selectColumns cols row).map Prod.fst = cols := by
  simp [selectColumns, List.map_map, Function.comp_def]

/-- Claim C9: every successful `signUpWithEmail` or `signInWithEmail` call
returns a user object holding exactly the fields `id, full_name, email,
phone, employee_id, role, created_at, last_login` — in particular it never
contains the `password` field. -/
theorem auth_user_never_contains_password :
    (∀ (hash : String → String) (db : UsersTable) (nextId now : Nat)
        (email password name : String) (phone employeeId : Option String)
        (u : Row) (db' : UsersTable),
      signUpWithEmail hash db nextId now email password name phone employeeId
          = (.ok u, db') →
      u.map Prod.fst = publicColumns ∧ "password" ∉ u.map Prod.fst)
    ∧
    (∀ (hash : String → String) (db : UsersTable) (now : Nat)
        (email password : String) (u : Row) (db' : UsersTable),
      signInWithEmail hash db now email password = (.ok u, db') →
      u.map Prod.fst = publicColumns ∧ "password" ∉ u.map Prod.fst) := by
  constructor
  · intro hash db nextId now email password name phone employeeId u db' h
    unfold signUpWithEmail at h
    split at h
    · exact absurd (congrArg Prod.fst h) (by simp)
    · split at h
      · exact absurd (congrArg Prod.fst h) (by simp)
      · have hu : u = selectColumns publicColumns _ :=
          (AuthResult.ok.injEq _ _).mp (congrArg Prod.fst h).symm
        rw [hu, selectColumns_keys]
        exact ⟨rfl, by decide⟩
  · intro hash db now email password u db' h
    unfold signInWithEmail at h
    split at h
    · exact absurd (congrArg Prod.fst h) (by simp)
    · split at h
      · exact absurd (congrArg Prod.fst h) (by simp)
      · have hu : u = selectColumns publicColumns _ :=
          (AuthResult.ok.injEq _ _).mp (congrArg Prod.fst h).symm
        rw [hu, selectColumns_keys]
        exact ⟨rfl, by decide⟩

/-- Claim C10: when email, password or name is empty, `signUpWithEmail`
returns `{ok: false, error: 'All fields are required'}` and performs no
insert: the users table is returned unchanged. -/
theorem signUp_empty_field_no_insert (hash : String → String)
    (db : UsersTable) (nextId now : Nat) (email password name : String)
    (phone employeeId : Option String)
    (h : email = "" ∨ password = "" ∨ name = "") :
    signUpWithEmail hash db nextId now email password name phone employeeId
      = (.err "All fields are required", db) := by
  unfold signUpWithEmail
  rw [if_pos h]

/-- Witness for C10: the empty sign-up form on an empty users table. -/
theorem signUp_empty_field_no_insert_witness :
    signUpWithEmail (fun s => s) [] 1 0 "" "" "" none none
      = (.err "All fields are required", []) :=
  signUp_empty_field_no_insert (fun s => s) [] 1 0 "" "" "" none none
    (Or.inl rfl)

/-- JavaScript's `Math.atan2(y, x)` over the reals. -/
noncomputable def atan2 (y x : ℝ) : ℝ :=
  if 0 < x then Real.arctan (y / x)
  else if x < 0 then
    (if 0 ≤ y then Real.arctan (y / x) + Real.pi
     else Real.arctan (y / x) - Real.pi)
  else
    (if 0 < y then Real.pi / 2
     else if y < 0 then -(Real.pi / 2)
     else 0)

/-- Degrees to radians, the `toRad` helper of
`getDistanceFromLatLonInMeters`. -/
noncomputable def toRad (v : ℝ) : ℝ := v * Real.pi / 180

/-- The haversine great-circle distance of `face-verification/pre.tsx` and
`post.tsx` (`getDistanceFromLatLonInMeters`), with Earth radius
`R = 6371000` meters; floating-point trigonometry is modelled over the
reals. -/
noncomputable def getDistanceFromLatLonInMeters (lat1 lon1 lat2 lon2 : ℝ) : ℝ :=
  let R : ℝ := 6371000
  let dLat := toRad (lat2 - lat1)
  let dLon := toRad (lon2 - lon1)
  let a := Real.sin (dLat / 2) ^ 2
    + Real.cos (toRad lat1) * Real.cos (toRad lat2) * Real.sin (dLon / 2) ^ 2
  let c := 2 * atan2 (Real.sqrt a) (Real.sqrt (1 - a))
  R * c

/-- `DEFAULT_LOCATION` of the face-verification screens. -/
noncomputable def DEFAULT_LOCATION : ℝ × ℝ := (12.81696, 80.039546)

/-- `RADIUS_METERS` of the face-verification screens. -/
def RADIUS_METERS : ℝ := 450

/-- The outcome of `navigator.geolocation.getCurrentPosition`: a position,
or the error callback. -/
inductive GeoPosition where
  | success (lat lon : ℝ)
  | failure (msg : String)

/-- The geofence-relevant component state of the face-verification
screens: the last reported location and the `geoAllowed` gate. -/
structure GeoState where
  userLocation : Option (ℝ × ℝ)
  geoAllowed : Prop

/-- The initial component state: `userLocation = null`,
`geoAllowed = false`. -/
def initialGeoState : GeoState := { userLocation := none, geoAllowed := False }

/-- `verifyGeoFence` of `pre.tsx` / `post.tsx` as a state update: on a
position, store it and set `geoAllowed` to whether the haversine distance
to the target is at most `RADIUS_METERS`; on a geolocation error, set
`geoAllowed` to false (the location field is not written on that path). -/
noncomputable def verifyGeoFence (target : ℝ × ℝ) (st : GeoState)
    (pos : GeoPosition) : GeoState :=
  match pos with
  | .success lat lon =>
    { userLocation := some (lat, lon),
      geoAllowed :=
        getDistanceFromLatLonInMeters lat lon target.1 target.2
          ≤ RADIUS_METERS }
  | .failure _ => { st with geoAllowed := False }

/-- The render gate of both screens: the `AttendanceScanner` /
`FaceRegistration` component is mounted exactly when `geoAllowed` holds
(`{geoAllowed ? <AttendanceScanner .../> : ...}` and
`{geoAllowed && <FaceRegistration .../>}`). -/
def scannerShown (st : GeoState) : Prop := st.geoAllowed

/-- Claim C8: after a geofence check, scanning (and face registration) is
enabled iff the position was obtained and its haversine distance to the
configured target is at most `RADIUS_METERS` (450 m); a distance above the
radius, or a geolocation failure, leaves the scanner hidden. -/
theorem geofence_gate_iff_within_radius :
    (∀ (target : ℝ × ℝ) (st : GeoState) (lat lon : ℝ),
      scannerShown (verifyGeoFence target st (.success lat lon)) ↔
        getDistanceFromLatLonInMeters lat lon target.1 target.2
          ≤ RADIUS_METERS)
    ∧
    (∀ (target : ℝ × ℝ) (st : GeoState) (lat lon : ℝ),
      RADIUS_METERS < getDistanceFromLatLonInMeters lat lon target.1 target.2 →
        ¬ scannerShown (verifyGeoFence target st (.success lat lon)))
    ∧
    (∀ (target : ℝ × ℝ) (st : GeoState) (msg : String),
      ¬ scannerShown (verifyGeoFence target st (.failure msg)))
    ∧ ¬ scannerShown initialGeoState := by
  refine ⟨fun target st lat lon => Iff.rfl, fun target st lat lon h => ?_,
    fun target st msg h => h, fun h => h⟩
  exact fun hle => absurd hle (not_le.mpr h)

/-- Modelled from the spec: an enrolled identity of the Embedding Store
(`{identity_id, display_name, embedding: float[D]}`); the face-recognition
backend holding this store is not present in the repository's files.
Embedding coordinates are modelled as rationals. -/
structure EnrolledIdentity where
  identity_id : String
  display_name : String
  embedding : List ℚ
deriving DecidableEq

/-- Modelled from the spec: the Embedding Store's enrollment error for a
vector whose dimension mismatches the configured dimension D. -/
inductive StoreError where
  | InvalidEmbedding
deriving DecidableEq

/-- Modelled from the spec: `enroll(identity_id, name, embedding)` fails
with `InvalidEmbedding` on a dimension mismatch and otherwise replaces any
prior embedding for that identity (never appends a duplicate). -/
def enroll (D : Nat) (store : List EnrolledIdentity) (id name : String)
    (emb : List ℚ) : Except StoreError (List EnrolledIdentity) :=
  if emb.length ≠ D then .error .InvalidEmbedding
  else .ok ((store.filter fun e => e.identity_id ≠ id) ++ [⟨id, name, emb⟩])

/-- Modelled from the spec: `remove(identity_id)` is idempotent (no error
if absent). -/
def removeIdentity (store : List EnrolledIdentity) (id : String) :
    List EnrolledIdentity :=
  store.filter fun e => e.identity_id ≠ id

/-- The Embedding Store invariant: at most one active embedding per
`identity_id` (the stored ids are pairwise distinct). -/
def UniqueIds (store : List EnrolledIdentity) : Prop :=
  (store.map EnrolledIdentity.identity_id).Nodup

/-- Modelled from the spec: an embedding handle compared by the abstract
similarity function; the Embedder producing real vectors is part of the
face-recognition backend absent from the repository's files. -/
abbrev Embedding := Nat

/-- Modelled from the spec: the Matcher's decision
(`accepted|rejected|no_face|ambiguous`). -/
inductive Decision where
  | accepted
  | rejected
  | noFace
  | ambiguous
deriving DecidableEq

/-- Modelled from the spec: the Matcher's
`{identity_id | none, similarity, decision}` result. -/
structure MatchResult where
  identity : Option String
  similarity : ℚ
  decision : Decision
deriving DecidableEq

/-- The per-candidate similarity scores of a query against the gallery. -/
def scoreList (sim : Embedding → Embedding → ℚ) (q : Embedding)
    (gallery : List (String × Embedding)) : List (String × ℚ) :=
  gallery.map (fun g => (g.1, sim q g.2))

/-- Select the maximum-similarity candidate (the earliest on ties),
returning it with the remaining candidates. -/
def selectBest : List (String × ℚ) → Option ((String × ℚ) × List (String × ℚ))
  | [] => none
  | p :: ps =>
    match selectBest ps with
    | none => some (p, [])
    | some (b, rest) => if b.2 > p.2 then some (b, p :: rest) else some (p, b :: rest)

/-- The maximum score among a list of candidates, `none` when empty (used
for the second-best candidate). -/
def maxScore : List (String × ℚ) → Option ℚ
  | [] => none
  | p :: ps =>
    match maxScore ps with
    | none => some p.2
    | some m => some (max p.2 m)

/-- Modelled from the spec: `match(query_embedding) -> MatchResult`.
Similarity (cosine, supplied as the abstract `sim`) is computed against
every enrolled embedding and the maximum selected. Empty gallery →
`rejected` with no identity; best below the accept-threshold → `rejected`;
best at or above the threshold with the margin over the second-best below
the ambiguity margin → `ambiguous` with no identity; otherwise `accepted`
with the best candidate (a single candidate has no second-best and cannot
be ambiguous). -/
def matchQuery (sim : Embedding → Embedding → ℚ) (threshold margin : ℚ)
    (gallery : List (String × Embedding)) (q : Embedding) : MatchResult :=
  match selectBest (scoreList sim q gallery) with
  | none => ⟨none, 0, .rejected⟩
  | some (b, rest) =>
    if b.2 < threshold then ⟨none, b.2, .rejected⟩
    else
      match maxScore rest with
      | none => ⟨some b.1, b.2, .accepted⟩
      | some s2 =>
        if b.2 - s2 < margin then ⟨none, b.2, .ambiguous⟩
        else ⟨some b.1, b.2, .accepted⟩

/-- A concrete similarity instance for scenario checks: self-similarity 1,
similarity 9/10 between distinct embeddings. -/
def simNear : Embedding → Embedding → ℚ :=
  fun x y => if x = y then 1 else 9/10

/-- An enroll call that returns `.ok` appends the new identity to the store
purged of that identity. -/
theorem enroll_ok (D : Nat) (store : List EnrolledIdentity) (id name : String)
    (emb : List ℚ) (store' : List EnrolledIdentity)
    (h : enroll D store id name emb = .ok store') :
    store' = (store.filter fun e => e.identity_id ≠ id) ++ [⟨id, name, emb⟩] := by
  unfold enroll at h
  split at h
  · exact absurd h (by simp)
  · exact ((Except.ok.injEq _ _).mp h).symm

/-- Claim C5: the Embedding Store keeps at most one active embedding per
`identity_id`: the invariant is preserved by `enroll` and by `remove`, and
a second successful `enroll` for the same id replaces the first — the
store afterwards holds exactly one entry for that id, carrying the second
embedding. -/
theorem embedding_store_unique_per_id :
    (∀ (D : Nat) (store : List EnrolledIdentity) (id name : String)
        (emb : List ℚ) (store' : List EnrolledIdentity),
      UniqueIds store → enroll D store id name emb = .ok store' →
      UniqueIds store')
    ∧
    (∀ (store : List EnrolledIdentity) (id : String),
      UniqueIds store → UniqueIds (removeIdentity store id))
    ∧
    (∀ (D : Nat) (store : List EnrolledIdentity) (id n1 n2 : String)
        (e1 e2 : List ℚ) (s1 s2 : List EnrolledIdentity),
      enroll D store id n1 e1 = .ok s1 → enroll D s1 id n2 e2 = .ok s2 →
      s2.filter (fun e => e.identity_id = id) = [⟨id, n2, e2⟩]) := by
  refine ⟨fun D store id name emb store' hu h => ?_,
    fun store id hu => ?_, fun D store id n1 n2 e1 e2 s1 s2 h1 h2 => ?_⟩
  · rw [enroll_ok D store id name emb store' h]
    unfold UniqueIds at hu ⊢
    rw [List.map_append, List.nodup_append]
    refine ⟨hu.sublist (List.Sublist.map _ (List.filter_sublist store)),
      List.nodup_singleton id, ?_⟩
    intro x hx hy
    rcases List.mem_map.mp hx with ⟨e, he, hex⟩
    have hne : e.identity_id ≠ id :=
      of_decide_eq_true (List.mem_filter.mp he).2
    have hxid : x = id := by simpa using hy
    exact hne (hex.trans hxid)
  · exact hu.sublist (List.Sublist.map _ (List.filter_sublist store))
  · rw [enroll_ok D s1 id n2 e2 s2 h2, List.filter_append]
    have h0 : (s1.filter fun e => e.identity_id ≠ id).filter
        (fun e => e.identity_id = id) = [] := by
      rw [List.filter_eq_nil_iff]
      intro a ha
      have : a.identity_id ≠ id :=
        of_decide_eq_true (List.mem_filter.mp ha).2
      simp [this]
    rw [h0]
    simp

/-- Claim C3: on an empty Embedding Store, `match` returns decision
`rejected` with no identity, for every similarity function, threshold,
margin and query. -/
theorem matcher_empty_gallery_rejected :
    ∀ (sim : Embedding → Embedding → ℚ) (threshold margin : ℚ) (q : Embedding),
      matchQuery sim threshold margin [] q = ⟨none, 0, .rejected⟩ :=
  fun _ _ _ _ => rfl

/-- Claim C2: when the best similarity reaches the accept-threshold but
the margin over the second-best candidate is strictly below the ambiguity
margin, `match` returns `ambiguous` with no identity; in particular the
spec's scenario (identities A and B, query with similarity 1 to A and 9/10
to B, threshold 6/10, margin 15/100) yields `ambiguous`, not A. -/
theorem matcher_ambiguous_on_small_margin :
    (∀ (sim : Embedding → Embedding → ℚ) (threshold margin : ℚ)
        (gallery : List (String × Embedding)) (q : Embedding)
        (b : String × ℚ) (rest : List (String × ℚ)) (s2 : ℚ),
      selectBest (scoreList sim q gallery) = some (b, rest) →
      maxScore rest = some s2 →
      threshold ≤ b.2 → b.2 - s2 < margin →
      matchQuery sim threshold margin gallery q = ⟨none, b.2, .ambiguous⟩)
    ∧ matchQuery simNear (6/10) (15/100) [("A", 0), ("B", 1)] 0
        = ⟨none, 1, .ambiguous⟩ := by
  constructor
  · intro sim threshold margin gallery q b rest s2 hsel hmax hth hmargin
    simp only [matchQuery, hsel]
    rw [if_neg (not_lt.mpr hth)]
    simp only [hmax]
    rw [if_pos hmargin]
  · norm_num [matchQuery, scoreList, selectBest, maxScore, simNear]

/-- Claim C4: threshold monotonicity — for a fixed gallery and query,
raising the accept-threshold never turns a rejected query into an accepted
one. -/
theorem matcher_threshold_monotone (sim : Embedding → Embedding → ℚ)
    (margin t1 t2 : ℚ) (gallery : List (String × Embedding)) (q : Embedding)
    (hle : t1 ≤ t2)
    (hrej : (matchQuery sim t1 margin gallery q).decision = .rejected) :
    (matchQuery sim t2 margin gallery q).decision ≠ .accepted := by
  cases hsel : selectBest (scoreList sim q gallery) with
  | none => simp [matchQuery, hsel]
  | some br =>
    obtain ⟨b, rest⟩ := br
    simp only [matchQuery, hsel] at hrej ⊢
    by_cases hb : b.2 < t1
    · have hb2 : b.2 < t2 := lt_of_lt_of_le hb hle
      simp [hb2]
    · exfalso
      rw [if_neg hb] at hrej
      cases hmax : maxScore rest with
      | none => simp [hmax] at hrej
      | some s2 =>
        simp only [hmax] at hrej
        by_cases hm : b.2 - s2 < margin
        · rw [if_pos hm] at hrej; simp at hrej
        · rw [if_neg hm] at hrej; simp at hrej

/-- Witness for C4: the empty gallery is rejected at threshold 0 and not
accepted at threshold 1. -/
theorem matcher_threshold_monotone_witness :
    (matchQuery simNear 1 (15/100) [] 0).decision ≠ .accepted :=
  matcher_threshold_monotone simNear (15/100) 0 1 [] 0 (by norm_num) rfl

/-- Modelled from the spec: an AttendanceRecord
`{identity_id, timestamp, camera_id, confidence}`; the Attendance Ledger
holding these is part of the face-recognition backend absent from the
repository's files. -/
structure AttendanceRecord where
  identity_id : String
  timestamp : Nat
  camera_id : String
  confidence : ℚ
deriving DecidableEq

/-- Modelled from the spec: `MarkOutcome ∈ {marked, already_present}`. -/
inductive MarkOutcome where
  | marked
  | already_present
deriving DecidableEq

/-- Modelled from the spec:
`record_if_new(identity_id, camera_id, confidence, at_time)` — one logical
transaction: if a record for `(identity_id, window(at_time))` exists,
return `already_present` without a write, else insert a new record and
return `marked`. The window function (a calendar day by default) is the
`windowOf` parameter. -/
def record_if_new (windowOf : Nat → Nat) (ledger : List AttendanceRecord)
    (id cam : String) (conf : ℚ) (t : Nat) :
    MarkOutcome × List AttendanceRecord :=
  if ∃ r ∈ ledger, r.identity_id = id ∧ windowOf r.timestamp = windowOf t then
    (.already_present, ledger)
  else
    (.marked, ledger ++ [⟨id, t, cam, conf⟩])

/-- A sequence of `record_if_new` calls for one identity, each call a
`(camera_id, confidence, at_time)` triple, threaded through the ledger;
returns the outcomes in order and the final ledger. -/
def runCalls (windowOf : Nat → Nat) (id : String)
    (ledger : List AttendanceRecord) :
    List (String × ℚ × Nat) → List MarkOutcome × List AttendanceRecord
  | [] => ([], ledger)
  | c :: rest =>
    let r1 := record_if_new windowOf ledger id c.1 c.2.1 c.2.2
    let r2 := runCalls windowOf id r1.2 rest
    (r1.1 :: r2.1, r2.2)

/-- Once the ledger holds a record for the identity in the window, every
further call in that window returns `already_present` and leaves the
ledger unchanged. -/
theorem runCalls_already_present (windowOf : Nat → Nat) (id : String)
    (ledger : List AttendanceRecord) (w : Nat)
    (hmem : ∃ r ∈ ledger, r.identity_id = id ∧ windowOf r.timestamp = w) :
    ∀ calls : List (String × ℚ × Nat), (∀ c ∈ calls, windowOf c.2.2 = w) →
      runCalls windowOf id ledger calls
        = (List.replicate calls.length .already_present, ledger) := by
  intro calls
  induction calls with
  | nil => intro _; rfl
  | cons c cs ih =>
    intro hwin
    have hc : windowOf c.2.2 = w := hwin c (List.mem_cons_self c cs)
    have hcond : ∃ r ∈ ledger,
        r.identity_id = id ∧ windowOf r.timestamp = windowOf c.2.2 := by
      rw [hc]; exact hmem
    have h1 : record_if_new windowOf ledger id c.1 c.2.1 c.2.2
        = (.already_present, ledger) := by
      unfold record_if_new
      rw [if_pos hcond]
    have hih := ih (fun d hd => hwin d (List.mem_cons_of_mem c hd))
    simp only [runCalls, h1, hih]
    simp [List.replicate_succ]

/-- Claim C1: starting from a ledger with no record for identity `id` in
the window of `t`, a sequence of `record_if_new` calls for `id` whose
timestamps all fall in that window yields `marked` exactly on the first
call — which appends exactly one AttendanceRecord — and `already_present`
with no further write on every subsequent call. -/
theorem ledger_at_most_once_marked (windowOf : Nat → Nat) (id : String)
    (ledger : List AttendanceRecord) (cam : String) (conf : ℚ) (t : Nat)
    (rest : List (String × ℚ × Nat))
    (hfresh : ∀ r ∈ ledger,
      ¬(r.identity_id = id ∧ windowOf r.timestamp = windowOf t))
    (hwin : ∀ c ∈ rest, windowOf c.2.2 = windowOf t) :
    runCalls windowOf id ledger ((cam, conf, t) :: rest)
      = (.marked :: List.replicate rest.length .already_present,
         ledger ++ [⟨id, t, cam, conf⟩]) := by
  have h1 : record_if_new windowOf ledger id cam conf t
      = (.marked, ledger ++ [⟨id, t, cam, conf⟩]) := by
    unfold record_if_new
    rw [if_neg]
    rintro ⟨r, hr, hprop⟩
    exact hfresh r hr hprop
  have hmem : ∃ r ∈ ledger ++ [(⟨id, t, cam, conf⟩ : AttendanceRecord)],
      r.identity_id = id ∧ windowOf r.timestamp = windowOf t :=
    ⟨⟨id, t, cam, conf⟩, by simp, rfl, rfl⟩
  have h2 := runCalls_already_present windowOf id
    (ledger ++ [⟨id, t, cam, conf⟩]) (windowOf t) hmem rest hwin
  simp only [runCalls, h1, h2]

/-- Witness for C1: two same-day calls for identity X on an empty ledger —
the first marks, the second reports already present. -/
theorem ledger_at_most_once_marked_witness :
    runCalls (fun t => t / 86400) "X" [] [("cam1", (1 : ℚ), 100), ("cam1", 1, 200)]
      = ([.marked, .already_present], [⟨"X", 100, "cam1", 1⟩]) :=
  ledger_at_most_once_marked (fun t => t / 86400) "X" [] "cam1" 1 100
    [("cam1", 1, 200)] (by simp) (by simp)

/-- Modelled from the spec: the Scanner Controller's lifecycle states
`Idle → Starting → Active → Stopping → Idle`, plus `Error`. `Starting` and
`Stopping` are transient inside an atomic `start`/`stop` here, so a call
observes them only if one was interrupted. -/
inductive ScanState where
  | Idle
  | Starting
  | Active
  | Stopping
  | Error
deriving DecidableEq

/-- Modelled from the spec: a per-cycle pipeline failure of the Detector,
Embedder or Matcher (the backend components absent from the repository's
files). -/
inductive PipelineError where
  | detectorFailed
  | embedderFailed
  | matcherFailed
deriving DecidableEq

/-- The published outcome of one per-frame cycle: the Matcher's result, or
the error detail of the component that failed. -/
abbrev CycleResult := Except PipelineError MatchResult

/-- Modelled from the spec: the `ScannerSession`
`{state, latest_frame, latest_detection}` singleton, extended with the
camera id, the counts of camera-resource acquisitions and releases it has
performed (to state that no acquire or release happens twice), and the
Attendance Ledger the cycle writes to. The published snapshot pairs the
frame with its cycle outcome. -/
structure ScannerSession where
  state : ScanState
  cameraId : String
  acquires : Nat
  releases : Nat
  snapshot : Option (Nat × CycleResult)
  ledger : List AttendanceRecord

/-- The session before any `start()`. -/
def initialSession (cam : String) : ScannerSession :=
  { state := .Idle, cameraId := cam, acquires := 0, releases := 0,
    snapshot := none, ledger := [] }

/-- Result of a `start()` / `stop()` call. -/
inductive LifecycleResult where
  | ok
  | alreadyRunning
  | resourceUnavailable
deriving DecidableEq

/-- Modelled from the spec: `start()` — from `Idle` it acquires the camera
and becomes `Active` (camera-acquisition failure goes directly to
`Error`); from `Active` it is a no-op success (no second acquisition);
from a transient or `Error` state it fails without touching the camera. -/
def start (cameraOk : Bool) (s : ScannerSession) :
    ScannerSession × LifecycleResult :=
  match s.state with
  | .Idle =>
    if cameraOk then
      ({ s with state := .Active, acquires := s.acquires + 1 }, .ok)
    else
      ({ s with state := .Error }, .resourceUnavailable)
  | .Active => (s, .ok)
  | .Starting => (s, .alreadyRunning)
  | .Stopping => (s, .alreadyRunning)
  | .Error => (s, .resourceUnavailable)

/-- Modelled from the spec: `stop()` — from `Active` or `Starting` it
releases the camera and returns to `Idle`; from `Idle` it is an idempotent
no-op success with no release; from `Error` it returns to `Idle` (the
camera was never held there). -/
def stop (s : ScannerSession) : ScannerSession × LifecycleResult :=
  match s.state with
  | .Active => ({ s with state := .Idle, releases := s.releases + 1 }, .ok)
  | .Starting => ({ s with state := .Idle, releases := s.releases + 1 }, .ok)
  | .Idle => (s, .ok)
  | .Stopping => (s, .ok)
  | .Error => ({ s with state := .Idle }, .ok)

/-- Modelled from the spec: one per-frame cycle while `Active`: the
pipeline outcome for the captured frame (Matcher result, or the failing
component's error) is published as the session's latest snapshot; an
accepted identity is recorded in the ledger via `record_if_new`. A session
not in `Active` runs no cycle. -/
def runCycle (windowOf : Nat → Nat) (s : ScannerSession) (frame : Nat)
    (pipeline : CycleResult) (now : Nat) : ScannerSession :=
  if s.state = .Active then
    match pipeline with
    | .error e => { s with snapshot := some (frame, .error e) }
    | .ok res =>
      match res.decision, res.identity with
      | .accepted, some id =>
        { s with
          snapshot := some (frame, .ok res)
          ledger := (record_if_new windowOf s.ledger id s.cameraId
            res.similarity now).2 }
      | _, _ => { s with snapshot := some (frame, .ok res) }
  else s

/-- Claim C6: boundary idempotence of the scanner state machine — `stop()`
in `Idle` (in particular before any `start()`) is a no-op success with no
camera-resource release, and a second `start()` with no intervening
`stop()` is a no-op success that does not acquire the camera a second
time. -/
theorem scanner_boundary_idempotent :
    (∀ (cam : String) (a r : Nat) (snap : Option (Nat × CycleResult))
        (led : List AttendanceRecord),
      stop ⟨.Idle, cam, a, r, snap, led⟩ = (⟨.Idle, cam, a, r, snap, led⟩, .ok))
    ∧ (∀ cam : String, stop (initialSession cam) = (initialSession cam, .ok))
    ∧
    (∀ (cam : String) (a r : Nat) (snap : Option (Nat × CycleResult))
        (led : List AttendanceRecord),
      start true ((start true ⟨.Idle, cam, a, r, snap, led⟩).1)
          = ((start true ⟨.Idle, cam, a, r, snap, led⟩).1, .ok)
        ∧ ((start true ⟨.Idle, cam, a, r, snap, led⟩).1).acquires = a + 1) :=
  ⟨fun _ _ _ _ _ => rfl, fun _ => rfl, fun _ _ _ _ _ => ⟨rfl, rfl⟩⟩

/-- In an `Active` session, every cycle publishes its own pipeline outcome
as the latest snapshot, overwriting the previous one. -/
theorem runCycle_publishes (windowOf : Nat → Nat) (s : ScannerSession)
    (frame : Nat) (pipeline : CycleResult) (now : Nat)
    (hactive : s.state = .Active) :
    (runCycle windowOf s frame pipeline now).snapshot = some (frame, pipeline) := by
  unfold runCycle
  rw [if_pos hactive]
  cases pipeline with
  | error e2 => rfl
  | ok res =>
    dsimp only
    split <;> rfl

/-- A cycle never changes the session state of an `Active` session. -/
theorem runCycle_state (windowOf : Nat → Nat) (s : ScannerSession)
    (frame : Nat) (pipeline : CycleResult) (now : Nat)
    (hactive : s.state = .Active) :
    (runCycle windowOf s frame pipeline now).state = .Active := by
  unfold runCycle
  rw [if_pos hactive]
  cases pipeline with
  | error e2 => exact hactive
  | ok res =>
    dsimp only
    split
    · exact hactive
    · exact hactive

/-- Claim C7: per-cycle failure isolation — a Detector/Embedder/Matcher
failure in a cycle of an `Active` session only sets that cycle's published
outcome to the error detail: the session stays `Active`, the ledger is
untouched, and the next cycle still runs and publishes its own outcome. -/
theorem scanner_cycle_failure_isolated (windowOf : Nat → Nat)
    (s : ScannerSession) (frame : Nat) (e : PipelineError) (now : Nat)
    (hactive : s.state = .Active) :
    (runCycle windowOf s frame (.error e) now).state = .Active
    ∧ (runCycle windowOf s frame (.error e) now).snapshot
        = some (frame, .error e)
    ∧ (runCycle windowOf s frame (.error e) now).ledger = s.ledger
    ∧ ∀ (frame2 : Nat) (p2 : CycleResult) (now2 : Nat),
        (runCycle windowOf (runCycle windowOf s frame (.error e) now)
            frame2 p2 now2).snapshot = some (frame2, p2) := by
  have h1 : runCycle windowOf s frame (.error e) now
      = { s with snapshot := some (frame, .error e) } := by
    unfold runCycle
    rw [if_pos hactive]
  refine ⟨runCycle_state windowOf s frame (.error e) now hactive,
    runCycle_publishes windowOf s frame (.error e) now hactive,
    by rw [h1], ?_⟩
  intro frame2 p2 now2
  exact runCycle_publishes windowOf _ frame2 p2 now2
    (runCycle_state windowOf s frame (.error e) now hactive)

/-- Witness for C7: a detector failure on an active session with one prior
snapshot. -/
theorem scanner_cycle_failure_isolated_witness :
    (runCycle (fun t => t / 86400) ⟨.Active, "cam1", 1, 0, none, []⟩ 5
        (.error .detectorFailed) 100).state = .Active
    ∧ (runCycle (fun t => t / 86400) ⟨.Active, "cam1", 1, 0, none, []⟩ 5
        (.error .detectorFailed) 100).snapshot
        = some (5, .error .detectorFailed)
    ∧ (runCycle (fun t => t / 86400) ⟨.Active, "cam1", 1, 0, none, []⟩ 5
        (.error .detectorFailed) 100).ledger = []
    ∧ ∀ (frame2 : Nat) (p2 : CycleResult) (now2 : Nat),
        (runCycle (fun t => t / 86400)
            (runCycle (fun t => t / 86400) ⟨.Active, "cam1", 1, 0, none, []⟩ 5
              (.error .detectorFailed) 100) frame2 p2 now2).snapshot
          = some (frame2, p2) :=
  scanner_cycle_failure_isolated (fun t => t / 86400)
    ⟨.Active, "cam1", 1, 0, none, []⟩ 5 .detectorFailed 100 rfl

end AttendanceApp
